import Mathlib

/-!
Shallow embedding of the `uniform_grid` crate (a static 3-D uniform-grid
spatial index with a cascading nearest-neighbor search), together with
theorems settling the specification claims.

Modelling conventions:
* `f32` values are modelled as exact rationals (`ℚ`); floating-point
  rounding is outside the scope of this embedding.  The literal `1.01`
  of the source is modelled as the exact rational `101/100`.
* Rust's `as i64` cast on a float truncates toward zero; it is modelled
  by `ratTrunc`.  (Rust maps NaN to 0; the rational model has no NaN, and
  `0/0 = 0` in `ℚ` agrees with that behaviour at the one place a `0/0`
  can arise, namely a degenerate bounding box.)
* `(x as f32).cbrt() as usize` on a natural number is modelled exactly as
  the integer part of the real cube root, i.e. the largest `n` with
  `n³ ≤ x` (`natCbrt`).
* Fallible operations are modelled with `Option`/`Except`: the
  construction-time `unwrap`s of `UniformGrid::new` become
  `UniformGrid.new?` returning `none` where Rust would panic, and the
  NaN panic of `min_f32`/`max_f32` becomes an `Except.error`.
* The source modules `point_object.rs` and `spiral_cells.rs` are not part
  of the given sources; the point-object trait is modelled by using the
  bare position (`Point3`) as the stored object, and `SpiralCell` /
  `offset_variations` are modelled from the spec (marked below).
-/

/-- A position in 3-dimensional space, `[f32; 3]` in the source. -/
structure Point3 where
  x : ℚ
  y : ℚ
  z : ℚ
deriving DecidableEq

/-- `Offset3` from `offset3.rs`: offset into a 3-dimensional grid, with
`i64` components. -/
structure Offset3 where
  x : ℤ
  y : ℤ
  z : ℤ
deriving DecidableEq

/-- Componentwise addition of offsets (`impl Add for Offset3`). -/
instance : Add Offset3 :=
  ⟨fun a b => ⟨a.x + b.x, a.y + b.y, a.z + b.z⟩⟩

/-- Modelled from the spec: the missing module `spiral_cells.rs` defines
`SpiralCell`, "an ordered sequence of shell descriptors, each providing a
canonical representative offset ... and a stop index referencing a
position in the same sequence".  The two fields below are exactly the
ones the given source reads (`sc.offset`, `sc.stop_cell_index1`). -/
structure SpiralCell where
  offset : Offset3
  stop_cell_index1 : ℕ
deriving DecidableEq

/-- `f32` with NaN, for the model of `f32.rs`: `none` is NaN. -/
def F32 : Type := Option ℚ

instance : DecidableEq F32 := inferInstanceAs (DecidableEq (Option ℚ))

/-- Model of `f32::partial_cmp`: `none` exactly when either operand is
NaN, otherwise the order of the rational values. -/
def pcmp (x y : F32) : Option Ordering :=
  match x, y with
  | some a, some b =>
      some (if a < b then Ordering.lt else if b < a then Ordering.gt else Ordering.eq)
  | _, _ => none

/-- `min_f32` from `f32.rs`; the `panic!` branch is modelled as
`Except.error`. -/
def min_f32 (x y : F32) : Except String F32 :=
  match pcmp x y with
  | some Ordering.lt => Except.ok x
  | some Ordering.gt => Except.ok y
  | some Ordering.eq => Except.ok x
  | none => Except.error "Cannot compare NaN."

/-- `max_f32` from `f32.rs`; the `panic!` branch is modelled as
`Except.error`. -/
def max_f32 (x y : F32) : Except String F32 :=
  match pcmp x y with
  | some Ordering.lt => Except.ok y
  | some Ordering.gt => Except.ok x
  | some Ordering.eq => Except.ok x
  | none => Except.error "Cannot compare NaN."

/-- Truncation toward zero, the semantics of Rust's `as i64` cast on a
finite float. -/
def ratTrunc (q : ℚ) : ℤ :=
  if 0 ≤ q then ⌊q⌋ else -⌊-q⌋

/-- Largest `n` with `n·n·n ≤ m`: the exact-arithmetic reading of
`(m as f32).cbrt() as usize`. -/
def natCbrt (m : ℕ) : ℕ :=
  ((List.range (m + 2)).filter (fun n => n * n * n ≤ m)).foldl max 0

namespace Offset3

/-- `Offset3::into_grid_index1` from `offset3.rs`. -/
def into_grid_index1 (o : Offset3) (grid_size : ℕ × ℕ × ℕ) : Option ℕ :=
  if 0 ≤ o.x ∧ o.x.toNat < grid_size.1 ∧
     0 ≤ o.y ∧ o.y.toNat < grid_size.2.1 ∧
     0 ≤ o.z ∧ o.z.toNat < grid_size.2.2 then
    some (o.x.toNat + o.y.toNat * grid_size.1 + o.z.toNat * grid_size.1 * grid_size.2.1)
  else
    none

/-- `Offset3::from_grid_index1` from `offset3.rs`. -/
def from_grid_index1 (i grid_width_x grid_width_y : ℕ) : Offset3 :=
  ⟨(i % grid_width_x : ℕ), ((i / grid_width_x) % grid_width_y : ℕ),
    (i / (grid_width_x * grid_width_y) : ℕ)⟩

end Offset3

/-- `BoundingBox` from `bounding_box.rs`. -/
structure BoundingBox where
  min : Point3
  x_width : ℚ
  y_width : ℚ
  z_width : ℚ
deriving DecidableEq

/-- Running minimum of `f` over a point list.  The source starts the fold
at `+∞` with `min_f32`; for a non-empty NaN-free list that equals folding
from the first element, which is how it is modelled here (the empty case,
degenerate in Rust, is given the value 0). -/
def axisFoldMin (f : Point3 → ℚ) : List Point3 → ℚ
  | [] => 0
  | p :: rest => rest.foldl (fun a q => min (f q) a) (f p)

/-- Running maximum of `f` over a point list; see `axisFoldMin`. -/
def axisFoldMax (f : Point3 → ℚ) : List Point3 → ℚ
  | [] => 0
  | p :: rest => rest.foldl (fun a q => max (f q) a) (f p)

/-- `BoundingBox::new` from `bounding_box.rs`: one pass tracking per-axis
min and max; widths are max − min. -/
def BoundingBox.new (points : List Point3) : BoundingBox :=
  { min := ⟨axisFoldMin Point3.x points, axisFoldMin Point3.y points,
            axisFoldMin Point3.z points⟩
    x_width := axisFoldMax Point3.x points - axisFoldMin Point3.x points
    y_width := axisFoldMax Point3.y points - axisFoldMin Point3.y points
    z_width := axisFoldMax Point3.z points - axisFoldMin Point3.z points }

/-- `SearchResult` from `uniform_grid.rs`. -/
structure SearchResult where
  position : Point3
  point_object_index : ℕ
  distance2_to_query : ℚ
deriving DecidableEq

/-- `dist2` from `uniform_grid.rs`: squared Euclidean distance. -/
def dist2 (p q : Point3) : ℚ :=
  let x := q.x - p.x
  let y := q.y - p.y
  let z := q.z - p.z
  x * x + y * y + z * z

/-- `nearest` from `uniform_grid.rs`: the stored pair at minimal squared
distance to the query.  Rust's `min_by` keeps the first of equally
minimal elements, hence the strict `<` in the fold.  (The
`partial_cmp(..).unwrap()` NaN panic cannot occur in the exact model.) -/
def nearest (query_point : Point3) (points : List (Point3 × ℕ)) : Option SearchResult :=
  points.foldl
    (fun acc pi =>
      let sr : SearchResult := ⟨pi.1, pi.2, dist2 query_point pi.1⟩
      match acc with
      | none => some sr
      | some best =>
          if sr.distance2_to_query < best.distance2_to_query then some sr else some best)
    none

/-- `neighbor_offsets` from `uniform_grid.rs`: the 26 offsets in
`{-1,0,1}³` minus the zero offset, in source order. -/
def neighbor_offsets : List Offset3 :=
  [⟨-1, -1, -1⟩, ⟨0, -1, -1⟩, ⟨1, -1, -1⟩,
   ⟨-1, 0, -1⟩, ⟨0, 0, -1⟩, ⟨1, 0, -1⟩,
   ⟨-1, 1, -1⟩, ⟨0, 1, -1⟩, ⟨1, 1, -1⟩,
   ⟨-1, -1, 0⟩, ⟨0, -1, 0⟩, ⟨1, -1, 0⟩,
   ⟨-1, 0, 0⟩, ⟨1, 0, 0⟩,
   ⟨-1, 1, 0⟩, ⟨0, 1, 0⟩, ⟨1, 1, 0⟩,
   ⟨-1, -1, 1⟩, ⟨0, -1, 1⟩, ⟨1, -1, 1⟩,
   ⟨-1, 0, 1⟩, ⟨0, 0, 1⟩, ⟨1, 0, 1⟩,
   ⟨-1, 1, 1⟩, ⟨0, 1, 1⟩, ⟨1, 1, 1⟩]

/-- Modelled from the spec: the missing module `spiral_cells.rs` provides
"a derivation of all symmetric offset variants for a representative
offset".  Modelled as all coordinate permutations combined with all sign
flips (duplicates are harmless: they only revisit a cell).  None of the
theorems below depend on the exact variant set. -/
def offset_variations (o : Offset3) : List Offset3 :=
  ([⟨o.x, o.y, o.z⟩, ⟨o.x, o.z, o.y⟩, ⟨o.y, o.x, o.z⟩,
    ⟨o.y, o.z, o.x⟩, ⟨o.z, o.x, o.y⟩, ⟨o.z, o.y, o.x⟩] : List Offset3).flatMap
    (fun p =>
      [⟨p.x, p.y, p.z⟩, ⟨-p.x, p.y, p.z⟩, ⟨p.x, -p.y, p.z⟩, ⟨-p.x, -p.y, p.z⟩,
       ⟨p.x, p.y, -p.z⟩, ⟨-p.x, p.y, -p.z⟩, ⟨p.x, -p.y, -p.z⟩, ⟨-p.x, -p.y, -p.z⟩])

/-- `point_into_offset` (free function) from `uniform_grid.rs`: the cell
offset a position falls into, by truncating division of the position
relative to the grid minimum by the cell width. -/
def point_into_offset (point min_point : Point3) (cell_width : ℚ) : Offset3 :=
  let relx := point.x - min_point.x
  let rely := point.y - min_point.y
  let relz := point.z - min_point.z
  ⟨ratTrunc (relx / cell_width), ratTrunc (rely / cell_width), ratTrunc (relz / cell_width)⟩

/-- `point_into_index1` (free function) from `uniform_grid.rs`. -/
def point_into_index1 (point min_point : Point3) (cell_width : ℚ)
    (grid_size : ℕ × ℕ × ℕ) : Option ℕ :=
  (point_into_offset point min_point cell_width).into_grid_index1 grid_size

/-- The struct `UniformGrid` from `uniform_grid.rs`.  The stored point
objects are modelled as bare positions (the `PointObject` trait exposes
exactly a position). -/
structure UniformGrid where
  point_objs : List Point3
  cell_point_counts : List ℕ
  cell_point_positions : List (List (Point3 × ℕ))
  min_position : Point3
  cell_width : ℚ
  grid_dimensions : ℕ × ℕ × ℕ
  spiral_cells : List SpiralCell
deriving DecidableEq

/-- `cube_bb_width` of `UniformGrid::new`: the largest bounding-box
width (`max_f32(x, max_f32(y, z))`). -/
def cubeBBWidth (points : List Point3) : ℚ :=
  max (BoundingBox.new points).x_width
    (max (BoundingBox.new points).y_width (BoundingBox.new points).z_width)

/-- `cube_grid_width` of `UniformGrid::new`:
`(points.len() * scale as f32).cbrt() as usize` in exact arithmetic. -/
def cubeGridWidth (points : List Point3) (scale : ℕ) : ℕ :=
  natCbrt (points.length * scale)

/-- `cell_width` of `UniformGrid::new`:
`cube_bb_width * 1.01 / cube_grid_width as f32` in exact arithmetic. -/
def gridCellWidth (points : List Point3) (scale : ℕ) : ℚ :=
  cubeBBWidth points * (101 / 100) / (cubeGridWidth points scale : ℚ)

/-- The cell index `UniformGrid::new` computes for a point (both
bucketing passes use this and `unwrap` it); `minp`, `cw` and `gw` are
the locals `bb.min`, `cell_width` and `cube_grid_width` of the source. -/
def constructionIndex1 (minp : Point3) (cw : ℚ) (gw : ℕ) (p : Point3) : Option ℕ :=
  point_into_index1 p minp cw (gw, gw, gw)

/-- First bucketing pass of `UniformGrid::new`: per-cell point counts.
The `.getD 0` stands for the source's `unwrap()`; `UniformGrid.new?`
only reaches this after checking that every index is `some`. -/
def cellCounts (points : List Point3) (minp : Point3) (cw : ℚ) (gw : ℕ) : List ℕ :=
  points.foldl
    (fun cs p =>
      cs.set ((constructionIndex1 minp cw gw p).getD 0)
        (cs.getD ((constructionIndex1 minp cw gw p).getD 0) 0 + 1))
    (List.replicate (gw * gw * gw) 0)

/-- Second bucketing pass of `UniformGrid::new`: each cell's
`(position, point_index)` pairs, points visited in index order and pushed
at the end of their cell's vector. -/
def cellPositions (points : List Point3) (minp : Point3) (cw : ℚ) (gw : ℕ) :
    List (List (Point3 × ℕ)) :=
  points.enum.foldl
    (fun ps ip =>
      ps.set ((constructionIndex1 minp cw gw ip.2).getD 0)
        (ps.getD ((constructionIndex1 minp cw gw ip.2).getD 0) [] ++ [(ip.2, ip.1)]))
    ((cellCounts points minp cw gw).map (fun _ => []))

/-- The record `UniformGrid::new` would return. -/
def buildGrid (points : List Point3) (minp : Point3) (cw : ℚ) (gw : ℕ)
    (spiral : List SpiralCell) : UniformGrid :=
  { point_objs := points
    cell_point_counts := cellCounts points minp cw gw
    cell_point_positions := cellPositions points minp cw gw
    min_position := minp
    cell_width := cw
    grid_dimensions := (gw, gw, gw)
    spiral_cells := spiral }

/-- `UniformGrid::new` from `uniform_grid.rs`.  Rust `unwrap`s the cell
index of every point in both bucketing passes; the model returns `none`
exactly when one of those unwraps would panic. -/
def UniformGrid.new? (points : List Point3) (scale : ℕ)
    (spiral : List SpiralCell) : Option UniformGrid :=
  if points.all
      (fun p =>
        (constructionIndex1 (BoundingBox.new points).min (gridCellWidth points scale)
            (cubeGridWidth points scale) p).isSome) then
    some
      (buildGrid points (BoundingBox.new points).min (gridCellWidth points scale)
        (cubeGridWidth points scale) spiral)
  else
    none

namespace UniformGrid

/-- `UniformGrid::offset_into_index1`. -/
def offset_into_index1 (g : UniformGrid) (offset_from_origin : Offset3) : Option ℕ :=
  offset_from_origin.into_grid_index1 g.grid_dimensions

/-- `UniformGrid::nearest_wall_dist`, transcribed faithfully from the
source: note that the second operand of the z-wall `min` subtracts
`point[1]` (the y coordinate), exactly as on line 236 of
`uniform_grid.rs`. -/
def nearest_wall_dist (g : UniformGrid) (point : Point3) (cell_offset : Offset3) : ℚ :=
  let dist_to_x_wall :=
    min (point.x - (cell_offset.x : ℚ) * g.cell_width)
      (((cell_offset.x + 1 : ℤ) : ℚ) * g.cell_width - point.x)
  let dist_to_y_wall :=
    min (point.y - (cell_offset.y : ℚ) * g.cell_width)
      (((cell_offset.y + 1 : ℤ) : ℚ) * g.cell_width - point.y)
  let dist_to_z_wall :=
    min (point.z - (cell_offset.z : ℚ) * g.cell_width)
      (((cell_offset.z + 1 : ℤ) : ℚ) * g.cell_width - point.y)
  min dist_to_x_wall (min dist_to_y_wall dist_to_z_wall)

/-- `UniformGrid::nearest_in_cell_offsets`: gather the points of every
existing cell at the given offsets from the center cell and take the
nearest. -/
def nearest_in_cell_offsets (g : UniformGrid) (query_point : Point3)
    (center_cell_offset : Offset3) (cell_offsets : List Offset3) : Option SearchResult :=
  nearest query_point
    ((cell_offsets.filterMap (fun o => g.offset_into_index1 (center_cell_offset + o))).flatMap
      (fun i => g.cell_point_positions.getD i []))

/-- `UniformGrid::nearest_neighbor_in_query_cell` (the combined
local-cell / neighbor-ring stage).  The `.getD` after `nearest` stands
for the source's `unwrap()`, which is only reached when the cell's count
is positive. -/
def nearest_neighbor_in_query_cell (g : UniformGrid) (query_point : Point3)
    (query_cell_offset : Offset3) : Option SearchResult :=
  match g.offset_into_index1 query_cell_offset with
  | none => none
  | some query_cell_index =>
    if g.cell_point_counts.getD query_cell_index 0 > 0 then
      let nearest_in_query_cell :=
        (nearest query_point (g.cell_point_positions.getD query_cell_index [])).getD
          ⟨⟨0, 0, 0⟩, 0, 0⟩
      let dist_to_wall := g.nearest_wall_dist nearest_in_query_cell.position query_cell_offset
      if dist_to_wall * dist_to_wall > nearest_in_query_cell.distance2_to_query then
        some nearest_in_query_cell
      else
        match g.nearest_in_cell_offsets query_point query_cell_offset neighbor_offsets with
        | some nearest_in_neighbor_cells =>
            if nearest_in_query_cell.distance2_to_query ≤
                nearest_in_neighbor_cells.distance2_to_query then
              some nearest_in_query_cell
            else
              some nearest_in_neighbor_cells
        | none => some nearest_in_query_cell
    else
      none

/-- The candidate a spiral-table entry contributes: the nearest point in
the cells of all variants of the entry's offset, translated by the query
offset. -/
def spiral_cell_candidate (g : UniformGrid) (query_point : Point3)
    (query_cell_offset : Offset3) (sc : SpiralCell) : Option SearchResult :=
  g.nearest_in_cell_offsets query_point query_cell_offset (offset_variations sc.offset)

/-- The loop of `UniformGrid::nearest_neighbor_spiral_search`, with its
state (`maybe_stop_cell_index1`, `maybe_nearest_so_far`) made explicit.
`i` is the enumeration counter.  Besides the result, the function also
returns the list of counters of the entries the loop actually examined
(the body past the break check), which makes the temporal claims about
the loop statable. -/
def spiral_loop (g : UniformGrid) (query_point : Point3) (query_cell_offset : Offset3) :
    ℕ → List SpiralCell → Option ℕ → Option SearchResult →
      Option SearchResult × List ℕ
  | _, [], _, best => (best, [])
  | i, sc :: rest, stop?, best =>
    if (match stop? with | some s => i > s | none => false : Bool) then
      (best, [])
    else
      let cand := g.spiral_cell_candidate query_point query_cell_offset sc
      let stop2 : Option ℕ :=
        match stop?, cand with
        | none, some _ => some sc.stop_cell_index1
        | s, _ => s
      let best2 : Option SearchResult :=
        match best, cand with
        | none, c => c
        | some b, none => some b
        | some b, some c =>
            if c.distance2_to_query < b.distance2_to_query then some c else some b
      let r := spiral_loop g query_point query_cell_offset (i + 1) rest stop2 best2
      (r.1, i :: r.2)

/-- `UniformGrid::nearest_neighbor_spiral_search`: run the loop from the
second table entry (`enumerate().skip(1)`) with empty state. -/
def nearest_neighbor_spiral_search (g : UniformGrid) (query_point : Point3)
    (query_cell_offset : Offset3) : Option SearchResult :=
  (g.spiral_loop query_point query_cell_offset 1 (g.spiral_cells.drop 1) none none).1

/-- The counters of the spiral-table entries examined by the search. -/
def spiralExamined (g : UniformGrid) (query_point : Point3)
    (query_cell_offset : Offset3) : List ℕ :=
  (g.spiral_loop query_point query_cell_offset 1 (g.spiral_cells.drop 1) none none).2

/-- `UniformGrid::nearest_neighbor_brute_force`: scan every bucketed
point. -/
def nearest_neighbor_brute_force (g : UniformGrid) (query_point : Point3) :
    Option SearchResult :=
  nearest query_point g.cell_point_positions.flatten

/-- `UniformGrid::nearest_neighbor`: the cascade.  Returning the object
at the result's index models `&self.point_objs[sr.point_object_index]`
(always in bounds for a built grid). -/
def nearest_neighbor (g : UniformGrid) (query_point : Point3) : Option (Point3 × ℚ) :=
  let query_cell_offset := point_into_offset query_point g.min_position g.cell_width
  (((g.nearest_neighbor_in_query_cell query_point query_cell_offset).orElse
        (fun _ => g.nearest_neighbor_spiral_search query_point query_cell_offset)).orElse
      (fun _ => g.nearest_neighbor_brute_force query_point)).map
    (fun sr => (g.point_objs.getD sr.point_object_index ⟨0, 0, 0⟩, sr.distance2_to_query))

end UniformGrid

/-- Follows the spec's words (for comparison with the source's
`nearest_wall_dist`): "the minimum distance from that candidate point to
any of the six bounding planes of its own cell (using the cell's width
and the offset's implied min/max per axis)". -/
def nearest_wall_dist_spec (cell_width : ℚ) (point : Point3) (cell_offset : Offset3) : ℚ :=
  min
    (min (point.x - (cell_offset.x : ℚ) * cell_width)
      (((cell_offset.x + 1 : ℤ) : ℚ) * cell_width - point.x))
    (min
      (min (point.y - (cell_offset.y : ℚ) * cell_width)
        (((cell_offset.y + 1 : ℤ) : ℚ) * cell_width - point.y))
      (min (point.z - (cell_offset.z : ℚ) * cell_width)
        (((cell_offset.z + 1 : ℤ) : ℚ) * cell_width - point.z)))

/-- Follows the spec's words (for comparison with the source's cascade):
on an absent or empty query cell, "scan the 26 cells immediately adjacent
to the query cell ... collect the nearest point among existing, non-empty
ones". -/
def neighbor_stage_spec (g : UniformGrid) (query_point : Point3) : Option SearchResult :=
  g.nearest_in_cell_offsets query_point
    (point_into_offset query_point g.min_position g.cell_width) neighbor_offsets


/-- Eight-point input used for concrete evaluations: bounding box
`[0,100]³`, so with `scale = 1` the grid is `2×2×2` with cell width
`101/2`. -/
def examplePts : List Point3 :=
  [⟨101/4, 101/4, 101/4⟩, ⟨51, 101/4, 101/4⟩, ⟨0, 0, 0⟩, ⟨100, 100, 100⟩,
   ⟨100, 0, 0⟩, ⟨0, 100, 0⟩, ⟨0, 0, 100⟩, ⟨100, 100, 0⟩]

/-- The per-cell buckets of the grid built from `examplePts`. -/
def exampleBuckets : List (List (Point3 × ℕ)) :=
  [[(⟨101/4, 101/4, 101/4⟩, 0), (⟨0, 0, 0⟩, 2)],
   [(⟨51, 101/4, 101/4⟩, 1), (⟨100, 0, 0⟩, 4)],
   [(⟨0, 100, 0⟩, 5)], [(⟨100, 100, 0⟩, 7)], [(⟨0, 0, 100⟩, 6)],
   [], [], [(⟨100, 100, 100⟩, 3)]]

/-- The grid `UniformGrid::new(examplePts, 1, [])` builds (shown equal to
the construction's output in `exampleGrid_built`). -/
def exampleGrid : UniformGrid :=
  { point_objs := examplePts
    cell_point_counts := [2, 2, 1, 1, 1, 0, 0, 1]
    cell_point_positions := exampleBuckets
    min_position := ⟨0, 0, 0⟩
    cell_width := 101/2
    grid_dimensions := (2, 2, 2)
    spiral_cells := [] }

/-- A one-cell grid with a four-entry spiral table, used to exercise the
spiral-search loop concretely. -/
def spiralDemoGrid : UniformGrid :=
  { point_objs := [⟨0, 0, 0⟩]
    cell_point_counts := [1]
    cell_point_positions := [[(⟨0, 0, 0⟩, 0)]]
    min_position := ⟨0, 0, 0⟩
    cell_width := 1
    grid_dimensions := (1, 1, 1)
    spiral_cells := [⟨⟨0, 0, 0⟩, 0⟩, ⟨⟨0, 0, 0⟩, 2⟩, ⟨⟨0, 0, 0⟩, 2⟩, ⟨⟨0, 0, 0⟩, 3⟩] }

theorem Offset3.add_def (a b : Offset3) :
    a + b = ⟨a.x + b.x, a.y + b.y, a.z + b.z⟩ := rfl

theorem exampleBB : BoundingBox.new examplePts = ⟨⟨0, 0, 0⟩, 100, 100, 100⟩ := by
  norm_num [BoundingBox.new, axisFoldMin, axisFoldMax, examplePts]

theorem exampleGW : cubeGridWidth examplePts 1 = 2 := by decide

theorem exampleCW : gridCellWidth examplePts 1 = 101/2 := by
  rw [gridCellWidth, cubeBBWidth, exampleBB, exampleGW]
  norm_num

theorem exampleIdx0 :
    constructionIndex1 ⟨0, 0, 0⟩ (101/2) 2 ⟨101/4, 101/4, 101/4⟩ = some 0 := by
  norm_num [constructionIndex1, point_into_index1, point_into_offset, ratTrunc,
    Offset3.into_grid_index1]

theorem exampleIdx1 :
    constructionIndex1 ⟨0, 0, 0⟩ (101/2) 2 ⟨51, 101/4, 101/4⟩ = some 1 := by
  norm_num [constructionIndex1, point_into_index1, point_into_offset, ratTrunc,
    Offset3.into_grid_index1]

theorem exampleIdx2 :
    constructionIndex1 ⟨0, 0, 0⟩ (101/2) 2 ⟨0, 0, 0⟩ = some 0 := by
  norm_num [constructionIndex1, point_into_index1, point_into_offset, ratTrunc,
    Offset3.into_grid_index1]

theorem exampleIdx3 :
    constructionIndex1 ⟨0, 0, 0⟩ (101/2) 2 ⟨100, 100, 100⟩ = some 7 := by
  norm_num [constructionIndex1, point_into_index1, point_into_offset, ratTrunc,
    Offset3.into_grid_index1]

theorem exampleIdx4 :
    constructionIndex1 ⟨0, 0, 0⟩ (101/2) 2 ⟨100, 0, 0⟩ = some 1 := by
  norm_num [constructionIndex1, point_into_index1, point_into_offset, ratTrunc,
    Offset3.into_grid_index1]

theorem exampleIdx5 :
    constructionIndex1 ⟨0, 0, 0⟩ (101/2) 2 ⟨0, 100, 0⟩ = some 2 := by
  norm_num [constructionIndex1, point_into_index1, point_into_offset, ratTrunc,
    Offset3.into_grid_index1]

theorem exampleIdx6 :
    constructionIndex1 ⟨0, 0, 0⟩ (101/2) 2 ⟨0, 0, 100⟩ = some 4 := by
  norm_num [constructionIndex1, point_into_index1, point_into_offset, ratTrunc,
    Offset3.into_grid_index1]

theorem exampleIdx7 :
    constructionIndex1 ⟨0, 0, 0⟩ (101/2) 2 ⟨100, 100, 0⟩ = some 3 := by
  norm_num [constructionIndex1, point_into_index1, point_into_offset, ratTrunc,
    Offset3.into_grid_index1]

theorem exampleCounts :
    cellCounts examplePts ⟨0, 0, 0⟩ (101/2) 2 = [2, 2, 1, 1, 1, 0, 0, 1] := by
  simp [cellCounts, examplePts, exampleIdx0, exampleIdx1, exampleIdx2, exampleIdx3,
    exampleIdx4, exampleIdx5, exampleIdx6, exampleIdx7, List.replicate, List.set,
    List.getD, List.get?]

theorem examplePositions :
    cellPositions examplePts ⟨0, 0, 0⟩ (101/2) 2 = exampleBuckets := by
  simp only [cellPositions]
  rw [exampleCounts]
  simp [examplePts, exampleBuckets, exampleIdx0, exampleIdx1, exampleIdx2, exampleIdx3,
    exampleIdx4, exampleIdx5, exampleIdx6, exampleIdx7, List.enum, List.enumFrom,
    List.set, List.getD, List.get?, List.replicate]

/-- `UniformGrid::new(examplePts, 1, [])` succeeds and returns
`exampleGrid`. -/
theorem exampleGrid_built : UniformGrid.new? examplePts 1 [] = some exampleGrid := by
  simp only [UniformGrid.new?, exampleBB, exampleCW, exampleGW]
  rw [if_pos]
  · simp only [buildGrid]
    rw [exampleCounts, examplePositions]
    rfl
  · simp [examplePts, constructionIndex1, point_into_index1, point_into_offset, ratTrunc,
      Offset3.into_grid_index1]
    norm_num

/-- The cell offset of the C1 query `(45, 101/4, 101/4)` on the example
grid. -/
theorem exampleC1Offset :
    point_into_offset ⟨45, 101/4, 101/4⟩ (⟨0, 0, 0⟩ : Point3) (101/2) = ⟨0, 0, 0⟩ := by
  norm_num [point_into_offset, ratTrunc]

/-- Evaluation of the cascade on the C1 query: the stage-1 early exit
fires (the candidate's wall distance is `101/4`, its squared distance to
the query `6241/16 < 10201/16`), so the in-cell candidate is returned. -/
theorem exampleC1Eval :
    exampleGrid.nearest_neighbor ⟨45, 101/4, 101/4⟩ =
      some (⟨101/4, 101/4, 101/4⟩, 6241/16) := by
  norm_num [UniformGrid.nearest_neighbor, UniformGrid.nearest_neighbor_in_query_cell,
    UniformGrid.offset_into_index1, UniformGrid.nearest_wall_dist, point_into_offset,
    ratTrunc, Offset3.into_grid_index1, nearest, dist2, exampleGrid, exampleBuckets,
    examplePts, Option.orElse]

/-- C1: the claim that `nearest_neighbor` always returns a stored point
of minimal squared distance fails on the code.  On the grid built from
`examplePts` (scale 1) and query `(45, 25.25, 25.25)`, the search
returns the stored point `(25.25, 25.25, 25.25)` at squared distance
`6241/16 = 390.0625`, although the stored point `(51, 25.25, 25.25)` is
at squared distance `36`: the stage-1 early exit compares the candidate
point's wall distance against the candidate's distance to the query,
which does not bound the distance from the query to points of
neighboring cells. -/
theorem nearest_neighbor_returns_non_nearest_point :
    UniformGrid.new? examplePts 1 [] = some exampleGrid ∧
    exampleGrid.nearest_neighbor ⟨45, 101/4, 101/4⟩ =
      some (⟨101/4, 101/4, 101/4⟩, 6241/16) ∧
    examplePts.get? 1 = some ⟨51, 101/4, 101/4⟩ ∧
    dist2 ⟨45, 101/4, 101/4⟩ ⟨51, 101/4, 101/4⟩ = 36 ∧
    (36 : ℚ) < 6241/16 := by
  refine ⟨exampleGrid_built, exampleC1Eval, rfl, by norm_num [dist2], by norm_num⟩

/-- C2: the claim that `nearest_wall_dist` returns the minimum of the
six per-plane distances fails on the code: the z-axis upper-wall term
subtracts `point[1]` instead of `point[2]` (line 236 of
`uniform_grid.rs`).  On the built grid (cell width `101/2`), for the
point `(10, 10, 45)` in cell `(0,0,0)` the code returns `10` while the
minimum over the six bounding planes is `11/2` (the distance
`50.5 − 45` to the upper z plane). -/
theorem nearest_wall_dist_mismatches_spec_on_z_axis :
    UniformGrid.new? examplePts 1 [] = some exampleGrid ∧
    exampleGrid.cell_width = 101/2 ∧
    exampleGrid.nearest_wall_dist ⟨10, 10, 45⟩ ⟨0, 0, 0⟩ = 10 ∧
    nearest_wall_dist_spec (101/2) ⟨10, 10, 45⟩ ⟨0, 0, 0⟩ = 11/2 ∧
    (10 : ℚ) ≠ 11/2 := by
  refine ⟨exampleGrid_built, rfl, ?_, ?_, by norm_num⟩
  · norm_num [UniformGrid.nearest_wall_dist, exampleGrid]
  · norm_num [nearest_wall_dist_spec]

/-- The C3 query `(25, 60, 60)` falls in cell `(0,1,1)` of the example
grid — a cell that exists but holds no point. -/
theorem exampleC3Offset :
    point_into_offset ⟨25, 60, 60⟩ (⟨0, 0, 0⟩ : Point3) (101/2) = ⟨0, 1, 1⟩ := by
  norm_num [point_into_offset, ratTrunc]

theorem exampleC3Stage12 :
    exampleGrid.nearest_neighbor_in_query_cell ⟨25, 60, 60⟩ ⟨0, 1, 1⟩ = none := by
  norm_num [UniformGrid.nearest_neighbor_in_query_cell, UniformGrid.offset_into_index1,
    Offset3.into_grid_index1, exampleGrid]

theorem exampleC3NeighborScan :
    neighbor_stage_spec exampleGrid ⟨25, 60, 60⟩ =
      some ⟨⟨101/4, 101/4, 101/4⟩, 0, 38643/16⟩ := by
  norm_num [neighbor_stage_spec, UniformGrid.nearest_in_cell_offsets,
    UniformGrid.offset_into_index1, Offset3.into_grid_index1, Offset3.add_def,
    point_into_offset, ratTrunc, neighbor_offsets, nearest, dist2, exampleGrid,
    exampleBuckets, List.filterMap, Int.toNat]

/-- C3 counterexample: on the example grid the query `(25, 60, 60)`
falls in cell `(0,1,1)`, which exists (flat index 6) but is empty; the
claim says the search then scans the 26 adjacent cells (which would
yield the point `(25.25, 25.25, 25.25)` at squared distance `38643/16`),
but the code's combined local/neighbor stage returns `none` without any
neighbor scan, so the cascade proceeds directly to the spiral-shell
search. -/
theorem empty_query_cell_skips_neighbor_scan_cex :
    UniformGrid.new? examplePts 1 [] = some exampleGrid ∧
    point_into_offset ⟨25, 60, 60⟩ exampleGrid.min_position exampleGrid.cell_width =
      ⟨0, 1, 1⟩ ∧
    exampleGrid.offset_into_index1 ⟨0, 1, 1⟩ = some 6 ∧
    exampleGrid.cell_point_counts.getD 6 0 = 0 ∧
    exampleGrid.nearest_neighbor_in_query_cell ⟨25, 60, 60⟩ ⟨0, 1, 1⟩ = none ∧
    neighbor_stage_spec exampleGrid ⟨25, 60, 60⟩ =
      some ⟨⟨101/4, 101/4, 101/4⟩, 0, 38643/16⟩ := by
  refine ⟨exampleGrid_built, exampleC3Offset, ?_, rfl, exampleC3Stage12,
    exampleC3NeighborScan⟩
  norm_num [UniformGrid.offset_into_index1, Offset3.into_grid_index1, exampleGrid]

/-- C3 (amended): when the query cell does not exist or is empty, the
combined local/neighbor stage yields nothing — the 26 adjacent cells are
not scanned — and `nearest_neighbor` is resolved by the spiral-shell
search, falling back to brute force. -/
theorem empty_query_cell_falls_through_to_spiral (g : UniformGrid) (q : Point3)
    (h : (g.offset_into_index1 (point_into_offset q g.min_position g.cell_width)).all
        (fun ci => g.cell_point_counts.getD ci 0 == 0) = true) :
    g.nearest_neighbor_in_query_cell q (point_into_offset q g.min_position g.cell_width) =
      none ∧
    g.nearest_neighbor q =
      ((g.nearest_neighbor_spiral_search q
            (point_into_offset q g.min_position g.cell_width)).orElse
          (fun _ => g.nearest_neighbor_brute_force q)).map
        (fun sr => (g.point_objs.getD sr.point_object_index ⟨0, 0, 0⟩,
          sr.distance2_to_query)) := by
  have hstage :
      g.nearest_neighbor_in_query_cell q
        (point_into_offset q g.min_position g.cell_width) = none := by
    rw [UniformGrid.nearest_neighbor_in_query_cell]
    cases hoi : g.offset_into_index1 (point_into_offset q g.min_position g.cell_width) with
    | none => rfl
    | some ci =>
      rw [hoi, Option.all_some] at h
      have h0 : g.cell_point_counts[ci]?.getD 0 = 0 := by simpa [List.getD] using h
      simp [h0]
  refine ⟨hstage, ?_⟩
  rw [UniformGrid.nearest_neighbor]
  simp only [hstage, Option.orElse, Option.none_orElse]

/-- Witness for `empty_query_cell_falls_through_to_spiral` at the C3
counterexample input. -/
theorem empty_query_cell_falls_through_to_spiral_witness :
    exampleGrid.nearest_neighbor_in_query_cell ⟨25, 60, 60⟩
        (point_into_offset ⟨25, 60, 60⟩ exampleGrid.min_position exampleGrid.cell_width) =
      none := by
  have h := empty_query_cell_falls_through_to_spiral exampleGrid ⟨25, 60, 60⟩ (by
    rw [show point_into_offset ⟨25, 60, 60⟩ exampleGrid.min_position exampleGrid.cell_width
        = ⟨0, 1, 1⟩ from exampleC3Offset]
    norm_num [UniformGrid.offset_into_index1, Offset3.into_grid_index1, exampleGrid])
  exact h.1

/-- The C4 query `(40.4, 45.45, 25.25)` falls in cell `(0,0,0)` of the
example grid. -/
theorem exampleC4Offset :
    point_into_offset ⟨202/5, 909/20, 101/4⟩ (⟨0, 0, 0⟩ : Point3) (101/2) = ⟨0, 0, 0⟩ := by
  norm_num [point_into_offset, ratTrunc]

/-- On the C4 query the best in-cell candidate is
`(25.25, 25.25, 25.25)` at squared distance `10201/16`. -/
theorem exampleC4Candidate :
    nearest ⟨202/5, 909/20, 101/4⟩ (exampleGrid.cell_point_positions.getD 0 []) =
      some ⟨⟨101/4, 101/4, 101/4⟩, 0, 10201/16⟩ := by
  norm_num [nearest, dist2, exampleGrid, exampleBuckets, List.getD]

/-- The candidate's wall distance is exactly `101/4`, whose square
equals its squared distance `10201/16` to the query: the claim's `≥`
condition holds with equality. -/
theorem exampleC4Wall :
    exampleGrid.nearest_wall_dist ⟨101/4, 101/4, 101/4⟩ ⟨0, 0, 0⟩ = 101/4 := by
  norm_num [UniformGrid.nearest_wall_dist, exampleGrid]

/-- Full cascade on the C4 query: the strict guard fails on the tie, the
26 neighbor cells are scanned, and the neighbor point
`(51, 25.25, 25.25)` at squared distance `2602/5` wins. -/
theorem exampleC4Eval :
    exampleGrid.nearest_neighbor ⟨202/5, 909/20, 101/4⟩ =
      some (⟨51, 101/4, 101/4⟩, 2602/5) := by
  norm_num [UniformGrid.nearest_neighbor, UniformGrid.nearest_neighbor_in_query_cell,
    UniformGrid.offset_into_index1, UniformGrid.nearest_wall_dist,
    UniformGrid.nearest_in_cell_offsets, Offset3.into_grid_index1, Offset3.add_def,
    point_into_offset, ratTrunc, neighbor_offsets, nearest, dist2, exampleGrid,
    exampleBuckets, examplePts, List.filterMap, Int.toNat, Option.orElse]

/-- C4 counterexample: the claim asserts that `dist_to_wall² ≥
candidate_distance²` (with equality allowed) makes the in-cell candidate
the final answer with no neighbor scanned.  On the example grid and the
C4 query the two sides are exactly equal (`10201/16`), yet the code's
strict `>` guard fails, the neighbor cells are scanned, and the final
answer is the neighbor point `(51, 25.25, 25.25)` — not the in-cell
candidate `(25.25, 25.25, 25.25)`. -/
theorem wall_tie_scans_neighbors_cex :
    UniformGrid.new? examplePts 1 [] = some exampleGrid ∧
    point_into_offset ⟨202/5, 909/20, 101/4⟩ exampleGrid.min_position
        exampleGrid.cell_width = ⟨0, 0, 0⟩ ∧
    exampleGrid.offset_into_index1 ⟨0, 0, 0⟩ = some 0 ∧
    0 < exampleGrid.cell_point_counts.getD 0 0 ∧
    nearest ⟨202/5, 909/20, 101/4⟩ (exampleGrid.cell_point_positions.getD 0 []) =
      some ⟨⟨101/4, 101/4, 101/4⟩, 0, 10201/16⟩ ∧
    exampleGrid.nearest_wall_dist ⟨101/4, 101/4, 101/4⟩ ⟨0, 0, 0⟩ *
        exampleGrid.nearest_wall_dist ⟨101/4, 101/4, 101/4⟩ ⟨0, 0, 0⟩ = 10201/16 ∧
    exampleGrid.nearest_neighbor ⟨202/5, 909/20, 101/4⟩ =
      some (⟨51, 101/4, 101/4⟩, 2602/5) ∧
    some ((⟨51, 101/4, 101/4⟩ : Point3), (2602/5 : ℚ)) ≠
      some ((⟨101/4, 101/4, 101/4⟩ : Point3), (10201/16 : ℚ)) := by
  refine ⟨exampleGrid_built, exampleC4Offset, ?_, by norm_num [exampleGrid],
    exampleC4Candidate, ?_, exampleC4Eval, ?_⟩
  · norm_num [UniformGrid.offset_into_index1, Offset3.into_grid_index1, exampleGrid]
  · rw [exampleC4Wall]; norm_num
  · simp only [ne_eq, Option.some.injEq, Prod.mk.injEq, not_and]
    intro hp
    exact absurd (congrArg Point3.x hp) (by norm_num)

/-- C4 (amended): the early exit fires exactly under the code's strict
condition `dist_to_wall² > candidate_distance²`; in that case the
in-cell candidate is returned as the final answer without consulting any
neighboring cell. -/
theorem strict_wall_prune_returns_candidate (g : UniformGrid) (q : Point3) (ci : ℕ)
    (cand : SearchResult)
    (h1 : g.offset_into_index1 (point_into_offset q g.min_position g.cell_width) = some ci)
    (h2 : 0 < g.cell_point_counts.getD ci 0)
    (h3 : nearest q (g.cell_point_positions.getD ci []) = some cand)
    (h4 : g.nearest_wall_dist cand.position
            (point_into_offset q g.min_position g.cell_width) *
          g.nearest_wall_dist cand.position
            (point_into_offset q g.min_position g.cell_width) >
          cand.distance2_to_query) :
    g.nearest_neighbor q =
      some (g.point_objs.getD cand.point_object_index ⟨0, 0, 0⟩,
        cand.distance2_to_query) := by
  have hstage :
      g.nearest_neighbor_in_query_cell q
        (point_into_offset q g.min_position g.cell_width) = some cand := by
    rw [UniformGrid.nearest_neighbor_in_query_cell, h1]
    simp only [h3, Option.getD_some]
    rw [if_pos h2, if_pos h4]
  rw [UniformGrid.nearest_neighbor]
  simp only [hstage, Option.orElse]
  rfl

/-- Witness for `strict_wall_prune_returns_candidate` at the C1 query on
the example grid: the wall test strictly succeeds and the in-cell
candidate is the final answer. -/
theorem strict_wall_prune_returns_candidate_witness :
    exampleGrid.nearest_neighbor ⟨45, 101/4, 101/4⟩ =
      some (examplePts.getD 0 ⟨0, 0, 0⟩, 6241/16) := by
  have hcand :
      nearest ⟨45, 101/4, 101/4⟩ (exampleGrid.cell_point_positions.getD 0 []) =
        some ⟨⟨101/4, 101/4, 101/4⟩, 0, 6241/16⟩ := by
    norm_num [nearest, dist2, exampleGrid, exampleBuckets, List.getD]
  exact strict_wall_prune_returns_candidate exampleGrid ⟨45, 101/4, 101/4⟩ 0
    ⟨⟨101/4, 101/4, 101/4⟩, 0, 6241/16⟩
    (by rw [show point_into_offset ⟨45, 101/4, 101/4⟩ exampleGrid.min_position
          exampleGrid.cell_width = ⟨0, 0, 0⟩ from exampleC1Offset]
        norm_num [UniformGrid.offset_into_index1, Offset3.into_grid_index1, exampleGrid])
    (by norm_num [exampleGrid]) hcand
    (by rw [show point_into_offset ⟨45, 101/4, 101/4⟩ exampleGrid.min_position
          exampleGrid.cell_width = ⟨0, 0, 0⟩ from exampleC1Offset]
        have := exampleC4Wall
        norm_num [this])

theorem pcmp_some_of_lt {a b : ℚ} (h : a < b) :
    pcmp (some a) (some b) = some Ordering.lt := by
  simp [pcmp, h]

theorem pcmp_some_of_gt {a b : ℚ} (h : b < a) :
    pcmp (some a) (some b) = some Ordering.gt := by
  simp [pcmp, not_lt_of_gt h, h]

theorem pcmp_some_of_eq {a b : ℚ} (h : a = b) :
    pcmp (some a) (some b) = some Ordering.eq := by
  subst h
  simp [pcmp]

/-- C9: `min_f32`/`max_f32` return the smaller (resp. larger) operand,
return the first argument on exact equality, and panic (modelled as
`Except.error`) exactly when an operand is NaN (modelled as `none`). -/
theorem min_max_f32_contract :
    (∀ a b : ℚ,
      min_f32 (some a) (some b) = Except.ok (some (min a b)) ∧
      max_f32 (some a) (some b) = Except.ok (some (max a b)) ∧
      (a = b →
        min_f32 (some a) (some b) = Except.ok (some a) ∧
        max_f32 (some a) (some b) = Except.ok (some a))) ∧
    (∀ x y : F32,
      (∃ e, min_f32 x y = Except.error e) ↔ (x = none ∨ y = none)) ∧
    (∀ x y : F32,
      (∃ e, max_f32 x y = Except.error e) ↔ (x = none ∨ y = none)) := by
  refine ⟨?_, ?_, ?_⟩
  · intro a b
    rcases lt_trichotomy a b with h | h | h
    · rw [min_f32, max_f32, pcmp_some_of_lt h, min_eq_left h.le, max_eq_right h.le]
      exact ⟨rfl, rfl, fun he => absurd he (ne_of_lt h)⟩
    · subst h
      rw [min_f32, max_f32, pcmp_some_of_eq rfl, min_self, max_self]
      exact ⟨rfl, rfl, fun _ => ⟨rfl, rfl⟩⟩
    · rw [min_f32, max_f32, pcmp_some_of_gt h, min_eq_right h.le, max_eq_left h.le]
      exact ⟨rfl, rfl, fun he => absurd he (ne_of_gt h)⟩
  · intro x y
    cases x with
    | none => simp [min_f32, pcmp]
    | some a =>
      cases y with
      | none => simp [min_f32, pcmp]
      | some b =>
        simp only [reduceCtorEq, or_self, iff_false, not_exists]
        intro e
        rcases lt_trichotomy a b with h | h | h
        · rw [min_f32, pcmp_some_of_lt h]; exact fun hc => by cases hc
        · rw [min_f32, pcmp_some_of_eq h]; exact fun hc => by cases hc
        · rw [min_f32, pcmp_some_of_gt h]; exact fun hc => by cases hc
  · intro x y
    cases x with
    | none => simp [max_f32, pcmp]
    | some a =>
      cases y with
      | none => simp [max_f32, pcmp]
      | some b =>
        simp only [reduceCtorEq, or_self, iff_false, not_exists]
        intro e
        rcases lt_trichotomy a b with h | h | h
        · rw [max_f32, pcmp_some_of_lt h]; exact fun hc => by cases hc
        · rw [max_f32, pcmp_some_of_eq h]; exact fun hc => by cases hc
        · rw [max_f32, pcmp_some_of_gt h]; exact fun hc => by cases hc

/-- Witness for `min_max_f32_contract` at concrete operands. -/
theorem min_max_f32_contract_witness :
    min_f32 (some 2) (some 2) = Except.ok (some 2) ∧
    (∃ e, min_f32 none (some 1) = Except.error e) ∧
    (∃ e, max_f32 (some 1) none = Except.error e) := by
  refine ⟨((min_max_f32_contract.1 2 2).2.2 rfl).1, ?_, ?_⟩
  · exact (min_max_f32_contract.2.1 none (some 1)).mpr (Or.inl rfl)
  · exact (min_max_f32_contract.2.2 (some 1) none).mpr (Or.inr rfl)

/-- Any index `into_grid_index1` produces is below the product of the
grid dimensions. -/
theorem into_grid_index1_lt (o : Offset3) (dims : ℕ × ℕ × ℕ) (i : ℕ)
    (h : o.into_grid_index1 dims = some i) : i < dims.1 * dims.2.1 * dims.2.2 := by
  rw [Offset3.into_grid_index1] at h
  split_ifs at h with hc
  injection h with hv
  obtain ⟨-, hx, -, hy, -, hz⟩ := hc
  subst hv
  calc o.x.toNat + o.y.toNat * dims.1 + o.z.toNat * dims.1 * dims.2.1
      < dims.1 + o.y.toNat * dims.1 + o.z.toNat * dims.1 * dims.2.1 := by omega
    _ = (1 + o.y.toNat) * dims.1 + o.z.toNat * (dims.1 * dims.2.1) := by ring
    _ ≤ dims.2.1 * dims.1 + o.z.toNat * (dims.1 * dims.2.1) := by
        exact Nat.add_le_add_right (Nat.mul_le_mul_right _ (by omega)) _
    _ = (1 + o.z.toNat) * (dims.1 * dims.2.1) := by ring
    _ ≤ dims.2.2 * (dims.1 * dims.2.1) := Nat.mul_le_mul_right _ (by omega)
    _ = dims.1 * dims.2.1 * dims.2.2 := by ring

/-- C8: `into_grid_index1` returns `some (x + y·dx + z·dx·dy)` exactly
when every component is within `[0, dimension)` for its axis (`none`
otherwise), and `from_grid_index1` is a right inverse to it on flat
indices below the cell count. -/
theorem grid_index1_correct (dx dy dz : ℕ) (hdx : 0 < dx) (hdy : 0 < dy)
    (hdz : 0 < dz) :
    (∀ o : Offset3,
      (0 ≤ o.x ∧ o.x < (dx : ℤ) ∧ 0 ≤ o.y ∧ o.y < (dy : ℤ) ∧
        0 ≤ o.z ∧ o.z < (dz : ℤ)) →
        o.into_grid_index1 (dx, dy, dz) =
          some (o.x.toNat + o.y.toNat * dx + o.z.toNat * dx * dy)) ∧
    (∀ o : Offset3,
      ¬(0 ≤ o.x ∧ o.x < (dx : ℤ) ∧ 0 ≤ o.y ∧ o.y < (dy : ℤ) ∧
        0 ≤ o.z ∧ o.z < (dz : ℤ)) →
        o.into_grid_index1 (dx, dy, dz) = none) ∧
    (∀ i : ℕ, i < dx * dy * dz →
      (Offset3.from_grid_index1 i dx dy).into_grid_index1 (dx, dy, dz) = some i) := by
  refine ⟨?_, ?_, ?_⟩
  · intro o ho
    simp only [Offset3.into_grid_index1]
    rw [if_pos (by omega)]
  · intro o ho
    simp only [Offset3.into_grid_index1]
    rw [if_neg (by omega)]
  · intro i hi
    simp only [Offset3.from_grid_index1, Offset3.into_grid_index1]
    have hxy : 0 < dx * dy := Nat.mul_pos hdx hdy
    have hz : i / (dx * dy) < dz := by
      rw [Nat.div_lt_iff_lt_mul hxy]
      calc i < dx * dy * dz := hi
        _ = dz * (dx * dy) := by ring
    rw [if_pos (by
      refine ⟨Int.natCast_nonneg _, ?_, Int.natCast_nonneg _, ?_,
        Int.natCast_nonneg _, ?_⟩ <;> simp only [Int.toNat_natCast]
      · exact Nat.mod_lt _ hdx
      · exact Nat.mod_lt _ hdy
      · exact hz)]
    simp only [Int.toNat_natCast, Option.some.injEq]
    have h1 : i / (dx * dy) = i / dx / dy := (Nat.div_div_eq_div_mul i dx dy).symm
    rw [h1]
    calc i % dx + i / dx % dy * dx + i / dx / dy * dx * dy
        = i % dx + dx * (i / dx % dy + dy * (i / dx / dy)) := by ring
      _ = i % dx + dx * (i / dx) := by rw [Nat.mod_add_div (i / dx) dy]
      _ = i := Nat.mod_add_div i dx

/-- Witness for `grid_index1_correct` on a `2×2×2` grid. -/
theorem grid_index1_correct_witness :
    (Offset3.into_grid_index1 ⟨1, 1, 1⟩ (2, 2, 2) = some 7) ∧
    (Offset3.into_grid_index1 ⟨2, 0, 0⟩ (2, 2, 2) = none) ∧
    ((Offset3.from_grid_index1 5 2 2).into_grid_index1 (2, 2, 2) = some 5) := by
  obtain ⟨h1, h2, h3⟩ :=
    grid_index1_correct 2 2 2 (by norm_num) (by norm_num) (by norm_num)
  exact ⟨h1 ⟨1, 1, 1⟩ (by norm_num), h2 ⟨2, 0, 0⟩ (by norm_num), h3 5 (by norm_num)⟩

theorem foldl_length_invariant {α β : Type} (f : List α → β → List α)
    (h : ∀ l b, (f l b).length = l.length) :
    ∀ (bs : List β) (init : List α), (bs.foldl f init).length = init.length := by
  intro bs
  induction bs with
  | nil => intro init; rfl
  | cons b bs ih => intro init; rw [List.foldl_cons, ih, h]

theorem cellCounts_length (points : List Point3) (minp : Point3) (cw : ℚ) (gw : ℕ) :
    (cellCounts points minp cw gw).length = gw * gw * gw := by
  rw [cellCounts, foldl_length_invariant _ (fun l b => List.length_set l _ _),
    List.length_replicate]

theorem cellPositions_length (points : List Point3) (minp : Point3) (cw : ℚ) (gw : ℕ) :
    (cellPositions points minp cw gw).length = gw * gw * gw := by
  rw [cellPositions, foldl_length_invariant _ (fun l b => List.length_set l _ _),
    List.length_map, cellCounts_length]

/-- C10: each index produced by `into_grid_index1` is below the product
of the grid dimensions, and on any built grid both flat per-cell vectors
have exactly that many entries, so indexing them with such an index is
in bounds. -/
theorem grid_index1_accesses_in_bounds :
    (∀ (o : Offset3) (dims : ℕ × ℕ × ℕ) (i : ℕ),
      o.into_grid_index1 dims = some i → i < dims.1 * dims.2.1 * dims.2.2) ∧
    (∀ (points : List Point3) (scale : ℕ) (spiral : List SpiralCell) (g : UniformGrid),
      UniformGrid.new? points scale spiral = some g →
      ∀ (off : Offset3) (i : ℕ), g.offset_into_index1 off = some i →
        i < g.cell_point_counts.length ∧ i < g.cell_point_positions.length) := by
  refine ⟨into_grid_index1_lt, ?_⟩
  intro points scale spiral g hg off i hi
  rw [UniformGrid.new?] at hg
  split_ifs at hg
  injection hg with hg
  subst hg
  rw [UniformGrid.offset_into_index1] at hi
  have hlt := into_grid_index1_lt off _ i hi
  simp only [buildGrid] at hlt ⊢
  rw [cellCounts_length, cellPositions_length]
  simpa using hlt

/-- Witness for `grid_index1_accesses_in_bounds` on the example grid. -/
theorem grid_index1_accesses_in_bounds_witness :
    7 < (2 : ℕ) * 2 * 2 ∧
    (6 < exampleGrid.cell_point_counts.length ∧
      6 < exampleGrid.cell_point_positions.length) := by
  refine ⟨grid_index1_accesses_in_bounds.1 ⟨1, 1, 1⟩ (2, 2, 2) 7 (by decide), ?_⟩
  exact grid_index1_accesses_in_bounds.2 examplePts 1 [] exampleGrid exampleGrid_built
    ⟨0, 1, 1⟩ 6 (by norm_num [UniformGrid.offset_into_index1, Offset3.into_grid_index1,
      exampleGrid])

theorem foldl_min_le_init (f : Point3 → ℚ) (l : List Point3) (a : ℚ) :
    l.foldl (fun acc q => min (f q) acc) a ≤ a := by
  induction l generalizing a with
  | nil => exact le_refl a
  | cons p t ih =>
    rw [List.foldl_cons]
    exact (ih (min (f p) a)).trans (min_le_right _ _)

theorem foldl_min_le_mem (f : Point3 → ℚ) (l : List Point3) (a : ℚ) (p : Point3)
    (hp : p ∈ l) : l.foldl (fun acc q => min (f q) acc) a ≤ f p := by
  induction l generalizing a with
  | nil => cases hp
  | cons q t ih =>
    rw [List.foldl_cons]
    rcases List.mem_cons.mp hp with h | h
    · subst h
      exact (foldl_min_le_init f t (min (f p) a)).trans (min_le_left _ _)
    · exact ih (min (f q) a) h

theorem init_le_foldl_max (f : Point3 → ℚ) (l : List Point3) (a : ℚ) :
    a ≤ l.foldl (fun acc q => max (f q) acc) a := by
  induction l generalizing a with
  | nil => exact le_refl a
  | cons p t ih =>
    rw [List.foldl_cons]
    exact (le_max_right (f p) a).trans (ih (max (f p) a))

theorem mem_le_foldl_max (f : Point3 → ℚ) (l : List Point3) (a : ℚ) (p : Point3)
    (hp : p ∈ l) : f p ≤ l.foldl (fun acc q => max (f q) acc) a := by
  induction l generalizing a with
  | nil => cases hp
  | cons q t ih =>
    rw [List.foldl_cons]
    rcases List.mem_cons.mp hp with h | h
    · subst h
      exact (le_max_left (f p) a).trans (init_le_foldl_max f t (max (f p) a))
    · exact ih (max (f q) a) h

theorem axisFoldMin_le (f : Point3 → ℚ) (pts : List Point3) (p : Point3)
    (hp : p ∈ pts) : axisFoldMin f pts ≤ f p := by
  cases pts with
  | nil => cases hp
  | cons q t =>
    rw [axisFoldMin]
    rcases List.mem_cons.mp hp with h | h
    · subst h
      exact foldl_min_le_init f t (f p)
    · exact foldl_min_le_mem f t (f q) p h

theorem le_axisFoldMax (f : Point3 → ℚ) (pts : List Point3) (p : Point3)
    (hp : p ∈ pts) : f p ≤ axisFoldMax f pts := by
  cases pts with
  | nil => cases hp
  | cons q t =>
    rw [axisFoldMax]
    rcases List.mem_cons.mp hp with h | h
    · subst h
      exact init_le_foldl_max f t (f p)
    · exact mem_le_foldl_max f t (f q) p h

theorem init_le_foldl_max_nat (l : List ℕ) (b : ℕ) : b ≤ l.foldl max b := by
  induction l generalizing b with
  | nil => exact le_refl b
  | cons x t ih => exact (le_max_left b x).trans (ih (max b x))

theorem mem_le_foldl_max_nat (l : List ℕ) (b a : ℕ) (ha : a ∈ l) :
    a ≤ l.foldl max b := by
  induction l generalizing b with
  | nil => cases ha
  | cons x t ih =>
    rw [List.foldl_cons]
    rcases List.mem_cons.mp ha with h | h
    · subst h
      exact (le_max_right b a).trans (init_le_foldl_max_nat t (max b a))
    · exact ih (max b x) h

theorem foldl_max_nat_pred {P : ℕ → Prop} (l : List ℕ) (b : ℕ)
    (hl : ∀ a ∈ l, P a) (hb : P b) : P (l.foldl max b) := by
  induction l generalizing b with
  | nil => exact hb
  | cons x t ih =>
    rw [List.foldl_cons]
    refine ih (max b x) (fun a ha => hl a (List.mem_cons_of_mem x ha)) ?_
    rcases max_choice b x with h | h
    · rw [h]; exact hb
    · rw [h]; exact hl x (List.mem_cons_self x t)

theorem natCbrt_le {n m : ℕ} (h : n * n * n ≤ m) : n ≤ natCbrt m := by
  refine mem_le_foldl_max_nat _ 0 n (List.mem_filter.mpr ⟨List.mem_range.mpr ?_, ?_⟩)
  · have hn : n ≤ n * n * n := by
      rcases Nat.eq_zero_or_pos n with h0 | h0
      · simp [h0]
      · calc n = n * 1 * 1 := by ring
          _ ≤ n * n * n := Nat.mul_le_mul (Nat.mul_le_mul_left n h0) h0
    omega
  · exact decide_eq_true h

theorem natCbrt_cube_le (m : ℕ) : natCbrt m * natCbrt m * natCbrt m ≤ m := by
  refine foldl_max_nat_pred (P := fun a => a * a * a ≤ m) _ 0 ?_ (by simp)
  intro a ha
  exact of_decide_eq_true (List.mem_filter.mp ha).2

theorem lt_natCbrt_succ_cube (m : ℕ) :
    m < (natCbrt m + 1) * (natCbrt m + 1) * (natCbrt m + 1) := by
  by_contra hc
  push_neg at hc
  exact absurd (natCbrt_le hc) (by omega)

theorem one_le_natCbrt {m : ℕ} (h : 1 ≤ m) : 1 ≤ natCbrt m :=
  natCbrt_le (by simpa)

theorem ratTrunc_nonneg_lt (q : ℚ) (c : ℕ) (h0 : 0 ≤ q) (h1 : q < c) :
    0 ≤ ratTrunc q ∧ (ratTrunc q).toNat < c := by
  rw [ratTrunc, if_pos h0]
  have hl : 0 ≤ ⌊q⌋ := Int.floor_nonneg.mpr h0
  have hu : ⌊q⌋ < (c : ℤ) := by
    rw [Int.floor_lt]
    exact_mod_cast h1
  exact ⟨hl, by omega⟩

/-- Per-axis bound: an input point's relative coordinate, divided by the
cell width, lies in `[0, cells_per_axis)`. -/
theorem axis_div_bound (points : List Point3) (scale : ℕ) (f : Point3 → ℚ)
    (p : Point3) (hp : p ∈ points) (hgw : 1 ≤ cubeGridWidth points scale)
    (hw : axisFoldMax f points - axisFoldMin f points ≤ cubeBBWidth points) :
    0 ≤ (f p - axisFoldMin f points) / gridCellWidth points scale ∧
    (f p - axisFoldMin f points) / gridCellWidth points scale <
      cubeGridWidth points scale := by
  have h0 : 0 ≤ f p - axisFoldMin f points :=
    sub_nonneg.mpr (axisFoldMin_le f points p hp)
  have hub : f p - axisFoldMin f points ≤ cubeBBWidth points :=
    le_trans (by have := le_axisFoldMax f points p hp; linarith) hw
  have hcpos : (0 : ℚ) < (cubeGridWidth points scale : ℚ) := by
    exact_mod_cast Nat.lt_of_lt_of_le Nat.zero_lt_one hgw
  rcases le_or_lt (cubeBBWidth points) 0 with hW | hW
  · have hrel : f p - axisFoldMin f points = 0 := le_antisymm (hub.trans hW) h0
    rw [hrel, zero_div]
    exact ⟨le_refl 0, hcpos⟩
  · have hcw : 0 < gridCellWidth points scale := by
      rw [gridCellWidth]
      positivity
    refine ⟨div_nonneg h0 hcw.le, ?_⟩
    rw [div_lt_iff₀ hcw, gridCellWidth, mul_div_assoc]
    have hcc : (cubeGridWidth points scale : ℚ) *
        (cubeBBWidth points * (101 / 100) / (cubeGridWidth points scale : ℚ)) =
        cubeBBWidth points * (101 / 100) := by
      rw [mul_div_cancel₀]
      exact ne_of_gt hcpos
    calc f p - axisFoldMin f points ≤ cubeBBWidth points := hub
      _ < cubeBBWidth points * (101 / 100) := by nlinarith
      _ = (cubeGridWidth points scale : ℚ) *
          (cubeBBWidth points * (101 / 100) / (cubeGridWidth points scale : ℚ)) :=
        hcc.symm
      _ = (cubeGridWidth points scale : ℚ) *
          (cubeBBWidth points * ((101 / 100) / (cubeGridWidth points scale : ℚ))) := by
        ring

/-- Every input point receives a valid cell index during construction
(the statement of both construction-time `unwrap`s succeeding). -/
theorem constructionIndex1_isSome (points : List Point3) (scale : ℕ) (p : Point3)
    (hp : p ∈ points) (hgw : 1 ≤ cubeGridWidth points scale) :
    (constructionIndex1 (BoundingBox.new points).min (gridCellWidth points scale)
        (cubeGridWidth points scale) p).isSome = true := by
  have hwx : axisFoldMax Point3.x points - axisFoldMin Point3.x points ≤
      cubeBBWidth points := by
    simp only [cubeBBWidth, BoundingBox.new]
    exact le_max_left _ _
  have hwy : axisFoldMax Point3.y points - axisFoldMin Point3.y points ≤
      cubeBBWidth points := by
    simp only [cubeBBWidth, BoundingBox.new]
    exact le_trans (le_max_left _ _) (le_max_right _ _)
  have hwz : axisFoldMax Point3.z points - axisFoldMin Point3.z points ≤
      cubeBBWidth points := by
    simp only [cubeBBWidth, BoundingBox.new]
    exact le_trans (le_max_right _ _) (le_max_right _ _)
  have hx := axis_div_bound points scale Point3.x p hp hgw hwx
  have hy := axis_div_bound points scale Point3.y p hp hgw hwy
  have hz := axis_div_bound points scale Point3.z p hp hgw hwz
  obtain ⟨hx0, hx1⟩ := ratTrunc_nonneg_lt _ _ hx.1 hx.2
  obtain ⟨hy0, hy1⟩ := ratTrunc_nonneg_lt _ _ hy.1 hy.2
  obtain ⟨hz0, hz1⟩ := ratTrunc_nonneg_lt _ _ hz.1 hz.2
  simp only [constructionIndex1, point_into_index1, point_into_offset,
    Offset3.into_grid_index1, BoundingBox.new]
  rw [if_pos ⟨hx0, hx1, hy0, hy1, hz0, hz1⟩]
  rfl

theorem construction_all_some (points : List Point3) (scale : ℕ)
    (hgw : 1 ≤ cubeGridWidth points scale) :
    points.all
      (fun p =>
        (constructionIndex1 (BoundingBox.new points).min (gridCellWidth points scale)
            (cubeGridWidth points scale) p).isSome) = true :=
  List.all_eq_true.mpr fun p hp => constructionIndex1_isSome points scale p hp hgw

/-- With at least one cell per axis, construction succeeds and returns
the `buildGrid` record. -/
theorem new?_eq_some (points : List Point3) (scale : ℕ) (spiral : List SpiralCell)
    (hgw : 1 ≤ cubeGridWidth points scale) :
    UniformGrid.new? points scale spiral =
      some (buildGrid points (BoundingBox.new points).min (gridCellWidth points scale)
        (cubeGridWidth points scale) spiral) := by
  rw [UniformGrid.new?, if_pos (construction_all_some points scale hgw)]

/-- C6: for a non-empty point set whose `point_count × scale` yields at
least one cell per axis, every input point — including one exactly on
the maximum face of the bounding box — maps to an existing cell index
(`isSome`), so the construction-time `unwrap`s never panic and both
bucketing passes place every point. -/
theorem construction_buckets_every_point (points : List Point3) (scale : ℕ)
    (spiral : List SpiralCell) (hne : points ≠ [])
    (hgw : 1 ≤ natCbrt (points.length * scale)) :
    (∀ p ∈ points,
      (constructionIndex1 (BoundingBox.new points).min (gridCellWidth points scale)
          (cubeGridWidth points scale) p).isSome = true) ∧
    UniformGrid.new? points scale spiral ≠ none := by
  have hgw' : 1 ≤ cubeGridWidth points scale := hgw
  refine ⟨fun p hp => constructionIndex1_isSome points scale p hp hgw', ?_⟩
  rw [new?_eq_some points scale spiral hgw']
  exact Option.some_ne_none _

/-- Witness for `construction_buckets_every_point` on the example input,
which contains the point `(100, 100, 100)` lying exactly on the maximum
corner of the bounding box. -/
theorem construction_buckets_every_point_witness :
    (∀ p ∈ examplePts,
      (constructionIndex1 (BoundingBox.new examplePts).min (gridCellWidth examplePts 1)
          (cubeGridWidth examplePts 1) p).isSome = true) ∧
    UniformGrid.new? examplePts 1 [] ≠ none :=
  construction_buckets_every_point examplePts 1 [] (by simp [examplePts])
    (by norm_num [show examplePts.length = 8 from rfl, show natCbrt 8 = 2 from by decide])

/-- C7: for a non-empty point set and positive scale, the built grid has
the same cell count `natCbrt (point_count × scale)` on every axis (the
integer part of the cube root), and the total number of cells does not
exceed `point_count × scale`. -/
theorem grid_dimensions_cbrt (points : List Point3) (scale : ℕ)
    (spiral : List SpiralCell) (hne : points ≠ []) (hs : 0 < scale) :
    ∃ g, UniformGrid.new? points scale spiral = some g ∧
      g.grid_dimensions = (natCbrt (points.length * scale),
        natCbrt (points.length * scale), natCbrt (points.length * scale)) ∧
      g.grid_dimensions.1 * g.grid_dimensions.2.1 * g.grid_dimensions.2.2 ≤
        points.length * scale ∧
      points.length * scale <
        (natCbrt (points.length * scale) + 1) * (natCbrt (points.length * scale) + 1) *
          (natCbrt (points.length * scale) + 1) := by
  have hm : 1 ≤ points.length * scale :=
    Nat.mul_pos (List.length_pos.mpr hne) hs
  have hgw : 1 ≤ cubeGridWidth points scale := one_le_natCbrt hm
  exact ⟨_, new?_eq_some points scale spiral hgw, rfl, natCbrt_cube_le _,
    lt_natCbrt_succ_cube _⟩

/-- Witness for `grid_dimensions_cbrt` on the example input. -/
theorem grid_dimensions_cbrt_witness :
    ∃ g, UniformGrid.new? examplePts 1 [] = some g ∧
      g.grid_dimensions = (natCbrt (examplePts.length * 1),
        natCbrt (examplePts.length * 1), natCbrt (examplePts.length * 1)) ∧
      g.grid_dimensions.1 * g.grid_dimensions.2.1 * g.grid_dimensions.2.2 ≤
        examplePts.length * 1 ∧
      examplePts.length * 1 <
        (natCbrt (examplePts.length * 1) + 1) * (natCbrt (examplePts.length * 1) + 1) *
          (natCbrt (examplePts.length * 1) + 1) :=
  grid_dimensions_cbrt examplePts 1 [] (by simp [examplePts]) Nat.one_pos

theorem spiral_loop_examined_ge (g : UniformGrid) (q : Point3) (qOff : Offset3) :
    ∀ (scs : List SpiralCell) (i : ℕ) (st : Option ℕ) (b : Option SearchResult)
      (j : ℕ), j ∈ (g.spiral_loop q qOff i scs st b).2 → i ≤ j := by
  intro scs
  induction scs with
  | nil =>
    intro i st b j hj
    simp [UniformGrid.spiral_loop] at hj
  | cons sc rest ih =>
    intro i st b j hj
    rw [UniformGrid.spiral_loop.eq_def] at hj
    simp only [] at hj
    split at hj
    · cases hj
    · simp only [] at hj
      rcases List.mem_cons.mp hj with h | h
      · exact h ▸ le_refl i
      · exact (Nat.le_succ i).trans (ih (i + 1) _ _ j h)

theorem spiral_loop_examined_le_stop (g : UniformGrid) (q : Point3) (qOff : Offset3) :
    ∀ (scs : List SpiralCell) (i s : ℕ) (b : Option SearchResult)
      (j : ℕ), j ∈ (g.spiral_loop q qOff i scs (some s) b).2 → j ≤ s := by
  intro scs
  induction scs with
  | nil =>
    intro i s b j hj
    simp [UniformGrid.spiral_loop] at hj
  | cons sc rest ih =>
    intro i s b j hj
    rw [UniformGrid.spiral_loop.eq_def] at hj
    simp only [] at hj
    split at hj
    · cases hj
    · next hcond =>
      have hle : i ≤ s := by
        simpa using hcond
      simp only [] at hj
      rcases List.mem_cons.mp hj with h | h
      · omega
      · exact ih (i + 1) s _ j h

theorem spiral_loop_isSome_of_best (g : UniformGrid) (q : Point3) (qOff : Offset3) :
    ∀ (scs : List SpiralCell) (i : ℕ) (st : Option ℕ) (b : SearchResult),
      (g.spiral_loop q qOff i scs st (some b)).1.isSome = true := by
  intro scs
  induction scs with
  | nil =>
    intro i st b
    simp [UniformGrid.spiral_loop]
  | cons sc rest ih =>
    intro i st b
    rw [UniformGrid.spiral_loop.eq_def]
    simp only []
    split
    · rfl
    · rcases hc : g.spiral_cell_candidate q qOff sc with _ | c
      · simp only [hc]
        exact ih (i + 1) _ b
      · simp only [hc]
        split
        all_goals split
        all_goals first
          | exact ih (i + 1) _ c
          | exact ih (i + 1) _ b

theorem spiral_loop_none_iff (g : UniformGrid) (q : Point3) (qOff : Offset3) :
    ∀ (scs : List SpiralCell) (i : ℕ),
      ((g.spiral_loop q qOff i scs none none).1 = none ↔
        ∀ sc ∈ scs, g.spiral_cell_candidate q qOff sc = none) := by
  intro scs
  induction scs with
  | nil =>
    intro i
    simp [UniformGrid.spiral_loop]
  | cons sc rest ih =>
    intro i
    rw [UniformGrid.spiral_loop.eq_def]
    simp only []
    split
    · next hcond => simp at hcond
    · rcases hc : g.spiral_cell_candidate q qOff sc with _ | c
      · simp only [hc]
        rw [ih (i + 1)]
        simp [List.forall_mem_cons, hc]
      · simp only [hc]
        constructor
        · intro h
          have hs := spiral_loop_isSome_of_best g q qOff rest (i + 1) (some sc.stop_cell_index1) c
          rw [h] at hs
          cases hs
        · intro hall
          have := hall sc (List.mem_cons_self sc rest)
          rw [hc] at this
          cases this

theorem spiral_loop_first_found (g : UniformGrid) (q : Point3) (qOff : Offset3) :
    ∀ (scs : List SpiralCell) (i k : ℕ) (b : Option SearchResult) (sc : SpiralCell),
      scs.get? k = some sc →
      g.spiral_cell_candidate q qOff sc ≠ none →
      (∀ m, m < k → ∀ sc2, scs.get? m = some sc2 →
        g.spiral_cell_candidate q qOff sc2 = none) →
      ∀ j ∈ (g.spiral_loop q qOff i scs none b).2, i + k < j →
        j ≤ sc.stop_cell_index1 := by
  intro scs
  induction scs with
  | nil =>
    intro i k b sc hk
    simp at hk
  | cons sc0 rest ih =>
    intro i k b sc hk hcand hprev j hj hgt
    rw [UniformGrid.spiral_loop.eq_def] at hj
    simp only [] at hj
    split at hj
    · next hcond => simp at hcond
    · cases k with
      | zero =>
        obtain rfl : sc0 = sc := by simpa using hk
        rcases hc : g.spiral_cell_candidate q qOff sc0 with _ | c
        · exact absurd hc hcand
        · rw [hc] at hj
          rcases List.mem_cons.mp hj with h | h
          · omega
          · exact spiral_loop_examined_le_stop g q qOff rest (i + 1) _ _ j h
      | succ k' =>
        have h0 : g.spiral_cell_candidate q qOff sc0 = none :=
          hprev 0 (Nat.succ_pos k') sc0 rfl
        rw [h0] at hj
        rcases List.mem_cons.mp hj with h | h
        · omega
        · refine ih (i + 1) k' _ sc ?_ hcand ?_ j h (by omega)
          · simpa using hk
          · intro m hm sc2 h2
            exact hprev (m + 1) (by omega) sc2 (by simpa using h2)

/-- C5: in the spiral-shell stage, the first table entry is always
skipped (every examined counter is at least 1); once the first candidate
is found at table entry `i`, no entry with counter greater than
`table[i].stop_cell_index1` is examined after it; and the stage yields
`none` exactly when every entry after the first contributes no
candidate, i.e. the table is exhausted without finding any point. -/
theorem spiral_search_skip_stop_exhaust (g : UniformGrid) (q : Point3) (qOff : Offset3) :
    (∀ j ∈ g.spiralExamined q qOff, 1 ≤ j) ∧
    (∀ (i : ℕ) (sc : SpiralCell), 1 ≤ i → g.spiral_cells.get? i = some sc →
      g.spiral_cell_candidate q qOff sc ≠ none →
      (∀ m, 1 ≤ m → m < i → ∀ sc2, g.spiral_cells.get? m = some sc2 →
        g.spiral_cell_candidate q qOff sc2 = none) →
      ∀ j ∈ g.spiralExamined q qOff, i < j → j ≤ sc.stop_cell_index1) ∧
    (g.nearest_neighbor_spiral_search q qOff = none ↔
      ∀ sc ∈ g.spiral_cells.drop 1, g.spiral_cell_candidate q qOff sc = none) := by
  refine ⟨?_, ?_, ?_⟩
  · intro j hj
    exact spiral_loop_examined_ge g q qOff (g.spiral_cells.drop 1) 1 none none j hj
  · intro i sc hi hget hcand hprev j hj hgt
    have hk : (g.spiral_cells.drop 1).get? (i - 1) = some sc := by
      rw [List.get?_drop]
      rwa [show 1 + (i - 1) = i from by omega]
    have hprev2 : ∀ m, m < i - 1 → ∀ sc2, (g.spiral_cells.drop 1).get? m = some sc2 →
        g.spiral_cell_candidate q qOff sc2 = none := by
      intro m hm sc2 h2
      rw [List.get?_drop] at h2
      exact hprev (1 + m) (by omega) (by omega) sc2 h2
    exact spiral_loop_first_found g q qOff (g.spiral_cells.drop 1) 1 (i - 1) none sc
      hk hcand hprev2 j hj (by omega)
  · exact spiral_loop_none_iff g q qOff (g.spiral_cells.drop 1) 1

theorem spiralDemo_cand :
    spiralDemoGrid.spiral_cell_candidate ⟨1/2, 1/2, 1/2⟩ ⟨0, 0, 0⟩ ⟨⟨0, 0, 0⟩, 2⟩ =
      some ⟨⟨0, 0, 0⟩, 0, 3/4⟩ := by
  norm_num [UniformGrid.spiral_cell_candidate, UniformGrid.nearest_in_cell_offsets,
    UniformGrid.offset_into_index1, Offset3.into_grid_index1, Offset3.add_def,
    offset_variations, nearest, dist2, spiralDemoGrid, List.filterMap, Int.toNat]

/-- Witness for `spiral_search_skip_stop_exhaust` on the demo grid: the
second table entry holds the first candidate, so every entry examined
after it has counter at most its stop index 2, no examined counter is 0,
and the stage returns a result. -/
theorem spiral_search_skip_stop_exhaust_witness :
    (∀ j ∈ spiralDemoGrid.spiralExamined ⟨1/2, 1/2, 1/2⟩ ⟨0, 0, 0⟩, 1 ≤ j) ∧
    spiralDemoGrid.spiral_cells.get? 1 = some ⟨⟨0, 0, 0⟩, 2⟩ ∧
    (∀ j ∈ spiralDemoGrid.spiralExamined ⟨1/2, 1/2, 1/2⟩ ⟨0, 0, 0⟩, 1 < j → j ≤ 2) ∧
    spiralDemoGrid.nearest_neighbor_spiral_search ⟨1/2, 1/2, 1/2⟩ ⟨0, 0, 0⟩ ≠ none := by
  have h := spiral_search_skip_stop_exhaust spiralDemoGrid ⟨1/2, 1/2, 1/2⟩ ⟨0, 0, 0⟩
  refine ⟨h.1, rfl, ?_, ?_⟩
  · exact h.2.1 1 ⟨⟨0, 0, 0⟩, 2⟩ (le_refl 1) rfl
      (by rw [spiralDemo_cand]; exact Option.some_ne_none _)
      (fun m h1 h2 => absurd (Nat.lt_of_le_of_lt h1 h2) (Nat.lt_irrefl 1))
  · intro hn
    have hall := (h.2.2).mp hn
    have hc := hall ⟨⟨0, 0, 0⟩, 2⟩ (by simp [spiralDemoGrid])
    rw [spiralDemo_cand] at hc
    cases hc
